import Mathlib

/-!
Shallow embedding of `S3Service.py` from the S3Scanner repository, together
with proofs about its probe operations.

Network interactions are modelled by passing each backend call's outcome
(`Except ClientError α`) as an explicit argument; in-place mutation of the
caller's bucket entity together with a possibly raised exception is modelled
by returning the final bucket state paired with an `Option S3Err`.
-/

namespace S3Scanner

/-- Modelled from the spec: the `Permission` enumeration of `s3Bucket.py`
(that file is not part of this snapshot): UNKNOWN (default) | ALLOWED | DENIED. -/
inductive Permission where
  | UNKNOWN
  | ALLOWED
  | DENIED
deriving DecidableEq, Repr

/-- Modelled from the spec: the `BucketExists` enumeration of `s3Bucket.py`:
UNKNOWN (default) | YES | NO. -/
inductive BucketExists where
  | UNKNOWN
  | YES
  | NO
deriving DecidableEq, Repr

/-- One grantee of an ACL grant, as consumed by `parse_found_acl`:
a type string and an optional URI (`'URI' in grant['Grantee']`). -/
structure Grantee where
  granteeType : String
  uri : Option String
deriving DecidableEq, Repr

/-- One grant of a stored ACL: `{'Grantee': ..., 'Permission': ...}`. -/
structure Grant where
  grantee : Grantee
  permission : String
deriving DecidableEq, Repr

/-- A `get_bucket_acl` result as consumed by `parse_found_acl`: the `'Grants'`
key may be present (a list of grants) or absent. -/
structure ACLRes where
  grants : Option (List Grant)
deriving DecidableEq, Repr

/-- Modelled from the spec: `s3BucketObject` of `s3Bucket.py` — one discovered
object: key, last-modified timestamp, size. -/
structure S3BucketObject where
  key : String
  last_modified : String
  size : Int
deriving DecidableEq, Repr

/-- Modelled from the spec: the mutable `s3Bucket` entity of `s3Bucket.py`:
name, existence status, optional raw ACL, ten permission flags, discovered
objects, enumeration-completed marker. -/
structure Bucket where
  name : String
  exists' : BucketExists := .UNKNOWN
  foundACL : Option ACLRes := none
  AuthUsersRead : Permission := .UNKNOWN
  AuthUsersWrite : Permission := .UNKNOWN
  AuthUsersReadACP : Permission := .UNKNOWN
  AuthUsersWriteACP : Permission := .UNKNOWN
  AuthUsersFullControl : Permission := .UNKNOWN
  AllUsersRead : Permission := .UNKNOWN
  AllUsersWrite : Permission := .UNKNOWN
  AllUsersReadACP : Permission := .UNKNOWN
  AllUsersWriteACP : Permission := .UNKNOWN
  AllUsersFullControl : Permission := .UNKNOWN
  objects : List S3BucketObject := []
  objects_enumerated : Bool := false
deriving DecidableEq, Repr

/-- A backend failure (`botocore.exceptions.ClientError`), reduced to the one
field the service inspects: `e.response['Error']['Code']`. -/
structure ClientError where
  code : String
deriving DecidableEq, Repr

/-- The exceptions the service can raise: `ValueError` for a wrong-typed or
not-confirmed-existing bucket, the generic "Bucket doesn't exist" exception,
the specific `AccessDeniedException` of `exceptions.py`, and a re-raised
backend `ClientError`. -/
inductive S3Err where
  | invalidInput
  | invalidState
  | notFound
  | accessDenied
  | clientError (e : ClientError)
deriving DecidableEq, Repr

/-- The access-denied-class test the service applies to backend error codes:
`e.response['Error']['Code'] == "AccessDenied" or ... == "AllAccessDisabled"`. -/
def isAccessDeniedCode (c : String) : Bool :=
  c == "AccessDenied" || c == "AllAccessDisabled"

/-- A backend operation the write probe performs against the bucket, recorded
so that theorems can speak about which requests were issued. -/
inductive S3Action where
  | putObject (key : String) (body : String)
  | deleteObject (key : String)
deriving DecidableEq, Repr

/-- `S3Service.check_bucket_exists` (src/S3Service.py:36-48): `head_bucket`
outcome `headRes`; error code `'404'` means the bucket does not exist, every
other outcome (success included) means it does. Only `bucket.exists'` is
written (the field is `exists` in the source, a keyword here). -/
def check_bucket_exists (headRes : Except ClientError Unit) (bucket : Bucket) :
    Bucket :=
  let bucket_exists :=
    match headRes with
    | .ok _ => true
    | .error e => if e.code == "404" then false else true
  { bucket with exists' := if bucket_exists then .YES else .NO }

/-- Group URI literal matched by `parse_found_acl` for the AuthenticatedUsers
group. -/
def authGroupURI : String :=
  "http://acs.amazonaws.com/groups/global/AuthenticatedUsers"

/-- Group URI literal matched by `parse_found_acl` for the AllUsers group. -/
def allGroupURI : String :=
  "http://acs.amazonaws.com/groups/global/AllUsers"

/-- The body of `parse_found_acl`'s per-grant loop (src/S3Service.py:242-276):
a grant to a `Group` grantee with one of the two recognized URIs sets the
matching principal's flags to ALLOWED according to its permission string. -/
def applyGrant (bucket : Bucket) (grant : Grant) : Bucket :=
  if grant.grantee.granteeType == "Group" then
    if grant.grantee.uri == some authGroupURI then
      if grant.permission == "FULL_CONTROL" then
        { bucket with AuthUsersRead := .ALLOWED, AuthUsersWrite := .ALLOWED,
                      AuthUsersReadACP := .ALLOWED, AuthUsersWriteACP := .ALLOWED,
                      AuthUsersFullControl := .ALLOWED }
      else if grant.permission == "READ" then
        { bucket with AuthUsersRead := .ALLOWED }
      else if grant.permission == "READ_ACP" then
        { bucket with AuthUsersReadACP := .ALLOWED }
      else if grant.permission == "WRITE" then
        { bucket with AuthUsersWrite := .ALLOWED }
      else if grant.permission == "WRITE_ACP" then
        { bucket with AuthUsersWriteACP := .ALLOWED }
      else bucket
    else if grant.grantee.uri == some allGroupURI then
      if grant.permission == "FULL_CONTROL" then
        { bucket with AllUsersRead := .ALLOWED, AllUsersWrite := .ALLOWED,
                      AllUsersReadACP := .ALLOWED, AllUsersWriteACP := .ALLOWED,
                      AllUsersFullControl := .ALLOWED }
      else if grant.permission == "READ" then
        { bucket with AllUsersRead := .ALLOWED }
      else if grant.permission == "READ_ACP" then
        { bucket with AllUsersReadACP := .ALLOWED }
      else if grant.permission == "WRITE" then
        { bucket with AllUsersWrite := .ALLOWED }
      else if grant.permission == "WRITE_ACP" then
        { bucket with AllUsersWriteACP := .ALLOWED }
      else bucket
    else bucket
  else bucket

/-- The `for grant in bucket.foundACL['Grants']` loop of `parse_found_acl`. -/
def applyGrants : List Grant → Bucket → Bucket
  | [], b => b
  | g :: gs, b => applyGrants gs (applyGrant b g)

/-- The closed-world default at the end of `parse_found_acl`
(src/S3Service.py:280-308): every flag still UNKNOWN becomes DENIED. -/
def applyDefaults (b : Bucket) : Bucket :=
  { b with
    AuthUsersRead := if b.AuthUsersRead = .UNKNOWN then .DENIED else b.AuthUsersRead,
    AuthUsersWrite := if b.AuthUsersWrite = .UNKNOWN then .DENIED else b.AuthUsersWrite,
    AuthUsersReadACP := if b.AuthUsersReadACP = .UNKNOWN then .DENIED else b.AuthUsersReadACP,
    AuthUsersWriteACP := if b.AuthUsersWriteACP = .UNKNOWN then .DENIED else b.AuthUsersWriteACP,
    AuthUsersFullControl := if b.AuthUsersFullControl = .UNKNOWN then .DENIED else b.AuthUsersFullControl,
    AllUsersRead := if b.AllUsersRead = .UNKNOWN then .DENIED else b.AllUsersRead,
    AllUsersWrite := if b.AllUsersWrite = .UNKNOWN then .DENIED else b.AllUsersWrite,
    AllUsersReadACP := if b.AllUsersReadACP = .UNKNOWN then .DENIED else b.AllUsersReadACP,
    AllUsersWriteACP := if b.AllUsersWriteACP = .UNKNOWN then .DENIED else b.AllUsersWriteACP,
    AllUsersFullControl := if b.AllUsersFullControl = .UNKNOWN then .DENIED else b.AllUsersFullControl }

/-- `S3Service.parse_found_acl` (src/S3Service.py:230-308): no-op when no ACL
is stored or the stored ACL carries no `'Grants'` key; otherwise apply every
grant, then the closed-world default. -/
def parse_found_acl (bucket : Bucket) : Bucket :=
  match bucket.foundACL with
  | none => bucket
  | some acl =>
    match acl.grants with
    | none => bucket
    | some gs => applyDefaults (applyGrants gs bucket)

/-- `S3Service.check_perm_read_acl` (src/S3Service.py:50-72). `creds` is the
service's `aws_creds_configured`; `aclRes` the `get_bucket_acl` outcome. -/
def check_perm_read_acl (creds : Bool) (aclRes : Except ClientError ACLRes)
    (bucket : Bucket) : Bucket × Option S3Err :=
  if bucket.exists' ≠ BucketExists.YES then (bucket, some .invalidState)
  else
    match aclRes with
    | .ok acl => (parse_found_acl { bucket with foundACL := some acl }, none)
    | .error e =>
      if isAccessDeniedCode e.code then
        let b :=
          if creds then { bucket with AuthUsersReadACP := .DENIED }
          else { bucket with AllUsersReadACP := .DENIED }
        (parse_found_acl b, none)
      else (bucket, some (.clientError e))

/-- `S3Service.check_perm_read` (src/S3Service.py:74-100): `listRes` is the
outcome of `list_objects_v2(MaxKeys=0)`. On the propagate path the
flag-writing block after the try/except is never reached. -/
def check_perm_read (creds : Bool) (listRes : Except ClientError Unit)
    (bucket : Bucket) : Bucket × Option S3Err :=
  if bucket.exists' ≠ BucketExists.YES then (bucket, some .invalidState)
  else
    let write := fun (list_bucket_perm_allowed : Bool) =>
      if creds then
        if bucket.AllUsersRead ≠ Permission.ALLOWED then
          ({ bucket with AuthUsersRead :=
              if list_bucket_perm_allowed then .ALLOWED else .DENIED },
           (none : Option S3Err))
        else (bucket, none)
      else
        ({ bucket with AllUsersRead :=
            if list_bucket_perm_allowed then .ALLOWED else .DENIED }, none)
    match listRes with
    | .ok _ => write true
    | .error e =>
      if isAccessDeniedCode e.code then write false
      else (bucket, some (.clientError e))

/-- `S3Service.check_perm_write` (src/S3Service.py:102-135). `now` is the
current wall-clock timestamp rendered as a string; `putRes` and `delRes` are
the outcomes of `put_object` and `delete_object`. Returns the bucket, the
backend requests actually issued, and the exception raised if any. The delete
is inside the same try block, after the flag assignment, so it only runs when
the upload succeeded, and its own ClientError goes through the same handler. -/
def check_perm_write (creds : Bool) (now : String)
    (putRes delRes : Except ClientError Unit) (bucket : Bucket) :
    Bucket × List S3Action × Option S3Err :=
  if bucket.exists' ≠ BucketExists.YES then (bucket, [], some .invalidState)
  else
    let timestamp_file := now ++ ".txt"
    let denyFlag := fun (b : Bucket) =>
      if creds then { b with AuthUsersWrite := Permission.DENIED }
      else { b with AllUsersWrite := Permission.DENIED }
    match putRes with
    | .error e =>
      if isAccessDeniedCode e.code then
        (denyFlag bucket, [.putObject timestamp_file ""], none)
      else (bucket, [.putObject timestamp_file ""], some (.clientError e))
    | .ok _ =>
      let b :=
        if creds then
          if bucket.AllUsersWrite ≠ Permission.ALLOWED then
            { bucket with AuthUsersWrite := Permission.ALLOWED }
          else bucket
        else { bucket with AllUsersWrite := Permission.ALLOWED }
      let acts := [S3Action.putObject timestamp_file "",
                   S3Action.deleteObject timestamp_file]
      match delRes with
      | .ok _ => (b, acts, none)
      | .error e =>
        if isAccessDeniedCode e.code then (denyFlag b, acts, none)
        else (b, acts, some (.clientError e))

/-- `allUsersURI` literal of src/S3Service.py:14 (note the `uri=` prefix used
for grant-request parameters). -/
def allUsersURI : String := "uri=http://acs.amazonaws.com/groups/global/AllUsers"

/-- `authUsersURI` literal of src/S3Service.py:15. -/
def authUsersURI : String :=
  "uri=http://acs.amazonaws.com/groups/global/AuthenticatedUsers"

/-- The optional grant-list parameters of a `put_bucket_acl` request, kept as
URI lists (the source comma-joins each non-empty list into `args`). `none`
means the parameter is not submitted. -/
structure AclArgs where
  grantRead : Option (List String)
  grantWrite : Option (List String)
  grantReadACP : Option (List String)
  grantWriteACP : Option (List String)
  grantFullControl : Option (List String)
deriving DecidableEq, Repr

/-- The grant-request construction of `check_perm_write_acl`
(src/S3Service.py:146-189): one URI list per capability from the flags at
ALLOWED (AuthUsers first, then AllUsers), the mode's own URI appended to the
write-ACP list, and only non-empty lists submitted. -/
def buildAclArgs (creds : Bool) (bucket : Bucket) : AclArgs :=
  let readURIs :=
    (if bucket.AuthUsersRead = Permission.ALLOWED then [authUsersURI] else []) ++
    (if bucket.AllUsersRead = Permission.ALLOWED then [allUsersURI] else [])
  let writeURIs :=
    (if bucket.AuthUsersWrite = Permission.ALLOWED then [authUsersURI] else []) ++
    (if bucket.AllUsersWrite = Permission.ALLOWED then [allUsersURI] else [])
  let readAcpURIs :=
    (if bucket.AuthUsersReadACP = Permission.ALLOWED then [authUsersURI] else []) ++
    (if bucket.AllUsersReadACP = Permission.ALLOWED then [allUsersURI] else [])
  let writeAcpURIs :=
    ((if bucket.AuthUsersWriteACP = Permission.ALLOWED then [authUsersURI] else []) ++
     (if bucket.AllUsersWriteACP = Permission.ALLOWED then [allUsersURI] else [])) ++
    [if creds then authUsersURI else allUsersURI]
  let fullControlURIs :=
    (if bucket.AuthUsersFullControl = Permission.ALLOWED then [authUsersURI] else []) ++
    (if bucket.AllUsersFullControl = Permission.ALLOWED then [allUsersURI] else [])
  { grantRead := if readURIs.length > 0 then some readURIs else none,
    grantWrite := if writeURIs.length > 0 then some writeURIs else none,
    grantReadACP := if readAcpURIs.length > 0 then some readAcpURIs else none,
    grantWriteACP := if writeAcpURIs.length > 0 then some writeAcpURIs else none,
    grantFullControl := if fullControlURIs.length > 0 then some fullControlURIs else none }

/-- `S3Service.check_perm_write_acl` (src/S3Service.py:137-206). `putAclRes`
is the outcome of `put_bucket_acl`; the submitted grant request (when the
precondition passed) is returned alongside the bucket and exception. -/
def check_perm_write_acl (creds : Bool) (putAclRes : Except ClientError Unit)
    (bucket : Bucket) : Bucket × Option AclArgs × Option S3Err :=
  if bucket.exists' ≠ BucketExists.YES then (bucket, none, some .invalidState)
  else
    let args := buildAclArgs creds bucket
    match putAclRes with
    | .ok _ =>
      let b :=
        if creds then
          if bucket.AllUsersWriteACP ≠ Permission.ALLOWED then
            { bucket with AuthUsersWriteACP := Permission.ALLOWED }
          else bucket
        else { bucket with AllUsersWriteACP := Permission.ALLOWED }
      (b, some args, none)
    | .error e =>
      if isAccessDeniedCode e.code then
        (if creds then { bucket with AuthUsersWriteACP := Permission.DENIED }
         else { bucket with AllUsersWriteACP := Permission.DENIED },
         some args, none)
      else (bucket, some args, some (.clientError e))

/-- One item of a `list_objects_v2` page, as consumed by
`enumerate_bucket_objects`. -/
structure ListItem where
  key : String
  lastModified : String
  size : Int
deriving DecidableEq, Repr

/-- `s3BucketObject(key=item['Key'], last_modified=item['LastModified'],
size=item['Size'])` (src/S3Service.py:223). -/
def itemToObj (it : ListItem) : S3BucketObject :=
  { key := it.key, last_modified := it.lastModified, size := it.size }

/-- One paginator step: either a page (whose `'Contents'` key may be absent)
or a `ClientError` raised while fetching it. -/
abbrev PageStep := Except ClientError (Option (List ListItem))

/-- The paging loop of `enumerate_bucket_objects` (src/S3Service.py:217-228).
A page without `'Contents'` sets the enumerated marker and returns at once.
A ClientError with an access-denied code raises `AccessDeniedException`;
any other ClientError is caught by the same handler, not re-raised, and
control falls through to the `objects_enumerated = True` after the loop. -/
def enumeratePages : List PageStep → Bucket → Bucket × Option S3Err
  | [], b => ({ b with objects_enumerated := true }, none)
  | .ok none :: _, b => ({ b with objects_enumerated := true }, none)
  | .ok (some items) :: rest, b =>
      enumeratePages rest { b with objects := b.objects ++ items.map itemToObj }
  | .error e :: _, b =>
      if isAccessDeniedCode e.code then (b, some .accessDenied)
      else ({ b with objects_enumerated := true }, none)

/-- `S3Service.enumerate_bucket_objects` (src/S3Service.py:208-228): run the
existence check first when it has not been run, refuse a confirmed-absent
bucket, then page through the listing. -/
def enumerate_bucket_objects (headRes : Except ClientError Unit)
    (pages : List PageStep) (bucket : Bucket) : Bucket × Option S3Err :=
  let b :=
    if bucket.exists' = BucketExists.UNKNOWN then check_bucket_exists headRes bucket
    else bucket
  if b.exists' = BucketExists.NO then (b, some .notFound)
  else enumeratePages pages b

/-! ### Helper lemmas -/

lemma enumerate_bucket_objects_yes (headRes : Except ClientError Unit)
    (pages : List PageStep) (bucket : Bucket)
    (h : bucket.exists' = BucketExists.YES) :
    enumerate_bucket_objects headRes pages bucket = enumeratePages pages bucket := by
  simp [enumerate_bucket_objects, h]

lemma enumeratePages_stop (pre : List (List ListItem)) (rest : List PageStep)
    (b : Bucket) :
    enumeratePages (pre.map (fun its => Except.ok (some its)) ++ Except.ok none :: rest) b
      = ({ b with objects := b.objects ++ pre.flatten.map itemToObj,
                  objects_enumerated := true }, none) := by
  induction pre generalizing b with
  | nil => simp [enumeratePages]
  | cons its pre ih =>
      simp only [List.map_cons, List.cons_append, enumeratePages, List.append_eq]
      rw [ih]
      simp [List.append_assoc]

/-- Whether one grant awards the capability named `perm` to the group with
URI `uri`: a "Group" grantee carrying that URI whose permission string is
either `perm` itself or FULL_CONTROL (which awards all five capabilities). -/
def grantMatches (g : Grant) (uri perm : String) : Bool :=
  g.grantee.granteeType == "Group" && g.grantee.uri == some uri &&
    (g.permission == perm || g.permission == "FULL_CONTROL")

/-- Whether one grant awards FullControl to the group with URI `uri` (only a
FULL_CONTROL grant does). -/
def grantMatchesFull (g : Grant) (uri : String) : Bool :=
  g.grantee.granteeType == "Group" && g.grantee.uri == some uri &&
    g.permission == "FULL_CONTROL"

/-- Whether some grant of the list awards capability `perm` to URI `uri`. -/
def grantsPerm (gs : List Grant) (uri perm : String) : Bool :=
  gs.any (fun g => grantMatches g uri perm)

/-- Whether some grant of the list awards FullControl to URI `uri`. -/
def grantsFullControl (gs : List Grant) (uri : String) : Bool :=
  gs.any (fun g => grantMatchesFull g uri)

lemma applyGrant_eq (b : Bucket) (g : Grant) :
    applyGrant b g = { b with
      AuthUsersRead :=
        if grantMatches g authGroupURI "READ" then .ALLOWED else b.AuthUsersRead,
      AuthUsersWrite :=
        if grantMatches g authGroupURI "WRITE" then .ALLOWED else b.AuthUsersWrite,
      AuthUsersReadACP :=
        if grantMatches g authGroupURI "READ_ACP" then .ALLOWED else b.AuthUsersReadACP,
      AuthUsersWriteACP :=
        if grantMatches g authGroupURI "WRITE_ACP" then .ALLOWED else b.AuthUsersWriteACP,
      AuthUsersFullControl :=
        if grantMatchesFull g authGroupURI then .ALLOWED else b.AuthUsersFullControl,
      AllUsersRead :=
        if grantMatches g allGroupURI "READ" then .ALLOWED else b.AllUsersRead,
      AllUsersWrite :=
        if grantMatches g allGroupURI "WRITE" then .ALLOWED else b.AllUsersWrite,
      AllUsersReadACP :=
        if grantMatches g allGroupURI "READ_ACP" then .ALLOWED else b.AllUsersReadACP,
      AllUsersWriteACP :=
        if grantMatches g allGroupURI "WRITE_ACP" then .ALLOWED else b.AllUsersWriteACP,
      AllUsersFullControl :=
        if grantMatchesFull g allGroupURI then .ALLOWED else b.AllUsersFullControl } := by
  rcases g with ⟨⟨ty, uri⟩, perm⟩
  by_cases h1 : ty = "Group" <;>
    by_cases h2 : uri = some authGroupURI <;>
      by_cases h3 : uri = some allGroupURI <;>
        by_cases h4 : perm = "FULL_CONTROL" <;>
          by_cases h5 : perm = "READ" <;>
            by_cases h6 : perm = "READ_ACP" <;>
              by_cases h7 : perm = "WRITE" <;>
                by_cases h8 : perm = "WRITE_ACP" <;>
                  simp_all [applyGrant, grantMatches, grantMatchesFull,
                    authGroupURI, allGroupURI]

lemma applyGrants_AuthUsersRead (gs : List Grant) (b : Bucket) :
    (applyGrants gs b).AuthUsersRead =
      if grantsPerm gs authGroupURI "READ" then Permission.ALLOWED
      else b.AuthUsersRead := by
  induction gs generalizing b with
  | nil => simp [applyGrants, grantsPerm]
  | cons g gs ih =>
      rw [applyGrants, ih, applyGrant_eq]
      simp only [grantsPerm, List.any_cons]
      by_cases hg : grantMatches g authGroupURI "READ" <;>
        by_cases hgs : gs.any (fun g => grantMatches g authGroupURI "READ") <;>
          simp_all [grantsPerm]

lemma applyGrants_AuthUsersWrite (gs : List Grant) (b : Bucket) :
    (applyGrants gs b).AuthUsersWrite =
      if grantsPerm gs authGroupURI "WRITE" then Permission.ALLOWED
      else b.AuthUsersWrite := by
  induction gs generalizing b with
  | nil => simp [applyGrants, grantsPerm]
  | cons g gs ih =>
      rw [applyGrants, ih, applyGrant_eq]
      simp only [grantsPerm, List.any_cons]
      by_cases hg : grantMatches g authGroupURI "WRITE" <;>
        by_cases hgs : gs.any (fun g => grantMatches g authGroupURI "WRITE") <;>
          simp_all [grantsPerm]

lemma applyGrants_AuthUsersReadACP (gs : List Grant) (b : Bucket) :
    (applyGrants gs b).AuthUsersReadACP =
      if grantsPerm gs authGroupURI "READ_ACP" then Permission.ALLOWED
      else b.AuthUsersReadACP := by
  induction gs generalizing b with
  | nil => simp [applyGrants, grantsPerm]
  | cons g gs ih =>
      rw [applyGrants, ih, applyGrant_eq]
      simp only [grantsPerm, List.any_cons]
      by_cases hg : grantMatches g authGroupURI "READ_ACP" <;>
        by_cases hgs : gs.any (fun g => grantMatches g authGroupURI "READ_ACP") <;>
          simp_all [grantsPerm]

lemma applyGrants_AuthUsersWriteACP (gs : List Grant) (b : Bucket) :
    (applyGrants gs b).AuthUsersWriteACP =
      if grantsPerm gs authGroupURI "WRITE_ACP" then Permission.ALLOWED
      else b.AuthUsersWriteACP := by
  induction gs generalizing b with
  | nil => simp [applyGrants, grantsPerm]
  | cons g gs ih =>
      rw [applyGrants, ih, applyGrant_eq]
      simp only [grantsPerm, List.any_cons]
      by_cases hg : grantMatches g authGroupURI "WRITE_ACP" <;>
        by_cases hgs : gs.any (fun g => grantMatches g authGroupURI "WRITE_ACP") <;>
          simp_all [grantsPerm]

lemma applyGrants_AuthUsersFullControl (gs : List Grant) (b : Bucket) :
    (applyGrants gs b).AuthUsersFullControl =
      if grantsFullControl gs authGroupURI then Permission.ALLOWED
      else b.AuthUsersFullControl := by
  induction gs generalizing b with
  | nil => simp [applyGrants, grantsFullControl]
  | cons g gs ih =>
      rw [applyGrants, ih, applyGrant_eq]
      simp only [grantsFullControl, List.any_cons]
      by_cases hg : grantMatchesFull g authGroupURI <;>
        by_cases hgs : gs.any (fun g => grantMatchesFull g authGroupURI) <;>
          simp_all [grantsFullControl]

lemma applyGrants_AllUsersRead (gs : List Grant) (b : Bucket) :
    (applyGrants gs b).AllUsersRead =
      if grantsPerm gs allGroupURI "READ" then Permission.ALLOWED
      else b.AllUsersRead := by
  induction gs generalizing b with
  | nil => simp [applyGrants, grantsPerm]
  | cons g gs ih =>
      rw [applyGrants, ih, applyGrant_eq]
      simp only [grantsPerm, List.any_cons]
      by_cases hg : grantMatches g allGroupURI "READ" <;>
        by_cases hgs : gs.any (fun g => grantMatches g allGroupURI "READ") <;>
          simp_all [grantsPerm]

lemma applyGrants_AllUsersWrite (gs : List Grant) (b : Bucket) :
    (applyGrants gs b).AllUsersWrite =
      if grantsPerm gs allGroupURI "WRITE" then Permission.ALLOWED
      else b.AllUsersWrite := by
  induction gs generalizing b with
  | nil => simp [applyGrants, grantsPerm]
  | cons g gs ih =>
      rw [applyGrants, ih, applyGrant_eq]
      simp only [grantsPerm, List.any_cons]
      by_cases hg : grantMatches g allGroupURI "WRITE" <;>
        by_cases hgs : gs.any (fun g => grantMatches g allGroupURI "WRITE") <;>
          simp_all [grantsPerm]

lemma applyGrants_AllUsersReadACP (gs : List Grant) (b : Bucket) :
    (applyGrants gs b).AllUsersReadACP =
      if grantsPerm gs allGroupURI "READ_ACP" then Permission.ALLOWED
      else b.AllUsersReadACP := by
  induction gs generalizing b with
  | nil => simp [applyGrants, grantsPerm]
  | cons g gs ih =>
      rw [applyGrants, ih, applyGrant_eq]
      simp only [grantsPerm, List.any_cons]
      by_cases hg : grantMatches g allGroupURI "READ_ACP" <;>
        by_cases hgs : gs.any (fun g => grantMatches g allGroupURI "READ_ACP") <;>
          simp_all [grantsPerm]

lemma applyGrants_AllUsersWriteACP (gs : List Grant) (b : Bucket) :
    (applyGrants gs b).AllUsersWriteACP =
      if grantsPerm gs allGroupURI "WRITE_ACP" then Permission.ALLOWED
      else b.AllUsersWriteACP := by
  induction gs generalizing b with
  | nil => simp [applyGrants, grantsPerm]
  | cons g gs ih =>
      rw [applyGrants, ih, applyGrant_eq]
      simp only [grantsPerm, List.any_cons]
      by_cases hg : grantMatches g allGroupURI "WRITE_ACP" <;>
        by_cases hgs : gs.any (fun g => grantMatches g allGroupURI "WRITE_ACP") <;>
          simp_all [grantsPerm]

lemma applyGrants_AllUsersFullControl (gs : List Grant) (b : Bucket) :
    (applyGrants gs b).AllUsersFullControl =
      if grantsFullControl gs allGroupURI then Permission.ALLOWED
      else b.AllUsersFullControl := by
  induction gs generalizing b with
  | nil => simp [applyGrants, grantsFullControl]
  | cons g gs ih =>
      rw [applyGrants, ih, applyGrant_eq]
      simp only [grantsFullControl, List.any_cons]
      by_cases hg : grantMatchesFull g allGroupURI <;>
        by_cases hgs : gs.any (fun g => grantMatchesFull g allGroupURI) <;>
          simp_all [grantsFullControl]

/-! ### Claim theorems -/

/-- C6: `check_bucket_exists` sets `exists` to NO exactly when the backend
responded with error code "404", to YES for every other outcome (success or
any other error code), and writes no other bucket field. -/
theorem check_bucket_exists_spec (bucket : Bucket)
    (headRes : Except ClientError Unit) :
    ((check_bucket_exists headRes bucket).exists' = BucketExists.NO ↔
       ∃ e, headRes = Except.error e ∧ e.code = "404") ∧
    ((check_bucket_exists headRes bucket).exists' = BucketExists.NO ∨
       (check_bucket_exists headRes bucket).exists' = BucketExists.YES) ∧
    { check_bucket_exists headRes bucket with exists' := bucket.exists' } = bucket := by
  cases headRes with
  | ok u => simp [check_bucket_exists]
  | error e =>
      by_cases h : e.code = "404" <;> simp [check_bucket_exists, h]

/-- C7: each of the four permission probes invoked on a bucket whose `exists`
field is not YES fails with the InvalidState error kind (the "Bucket might not
exist" `ValueError`) and leaves the bucket's fields unchanged. -/
theorem probes_require_exists (bucket : Bucket)
    (h : bucket.exists' ≠ BucketExists.YES) (creds : Bool)
    (aclRes : Except ClientError ACLRes) (listRes : Except ClientError Unit)
    (now : String) (putRes delRes putAclRes : Except ClientError Unit) :
    check_perm_read_acl creds aclRes bucket = (bucket, some S3Err.invalidState) ∧
    check_perm_read creds listRes bucket = (bucket, some S3Err.invalidState) ∧
    check_perm_write creds now putRes delRes bucket
      = (bucket, [], some S3Err.invalidState) ∧
    check_perm_write_acl creds putAclRes bucket
      = (bucket, none, some S3Err.invalidState) := by
  refine ⟨?_, ?_, ?_, ?_⟩ <;>
    simp [check_perm_read_acl, check_perm_read, check_perm_write,
      check_perm_write_acl, h]

/-- Witness for C7 at a freshly constructed bucket (whose `exists` is still
UNKNOWN). -/
theorem probes_require_exists_witness :
    ({ name := "bucket" } : Bucket).exists' ≠ BucketExists.YES ∧
    check_perm_read true (Except.ok ()) { name := "bucket" }
      = ({ name := "bucket" }, some S3Err.invalidState) :=
  ⟨by decide,
   (probes_require_exists { name := "bucket" } (by decide) true
      (Except.ok { grants := none }) (Except.ok ()) "1700000000.5"
      (Except.ok ()) (Except.ok ()) (Except.ok ())).2.1⟩

/-- C8: during enumeration, the first page carrying no "Contents" field sets
`objects_enumerated` and terminates the pass at once, recording no object from
that page or any later page (objects from earlier pages are kept). -/
theorem enumerate_stops_on_contentless_page (pre : List (List ListItem))
    (rest : List PageStep) (bucket : Bucket)
    (headRes : Except ClientError Unit)
    (h : bucket.exists' = BucketExists.YES) :
    enumerate_bucket_objects headRes
        (pre.map (fun its => Except.ok (some its)) ++ Except.ok none :: rest) bucket
      = ({ bucket with objects := bucket.objects ++ pre.flatten.map itemToObj,
                       objects_enumerated := true }, none) := by
  rw [enumerate_bucket_objects_yes _ _ _ h, enumeratePages_stop]

/-- Witness for C8: three pages, the first without "Contents", the later two
with items; the pass stops with zero recorded objects. -/
theorem enumerate_stops_on_contentless_page_witness :
    ({ name := "bucket", exists' := BucketExists.YES } : Bucket).exists'
      = BucketExists.YES ∧
    enumerate_bucket_objects (Except.ok ())
        [Except.ok none,
         Except.ok (some [{ key := "a", lastModified := "t1", size := 1 }]),
         Except.ok (some [{ key := "b", lastModified := "t2", size := 2 }])]
        { name := "bucket", exists' := BucketExists.YES }
      = ({ name := "bucket", exists' := BucketExists.YES,
           objects_enumerated := true }, none) := by
  refine ⟨rfl, ?_⟩
  have h := enumerate_stops_on_contentless_page []
      [Except.ok (some [{ key := "a", lastModified := "t1", size := 1 }]),
       Except.ok (some [{ key := "b", lastModified := "t2", size := 2 }])]
      { name := "bucket", exists' := BucketExists.YES } (Except.ok ()) rfl
  simpa using h

/-- The concrete bucket used to exhibit C1's failing input. -/
def c1bucket : Bucket := { name := "bucket", exists' := BucketExists.YES }

/-- C1: evaluation at the failing input. A backend failure whose error code is
neither "AccessDenied" nor "AllAccessDisabled" raised during paging is
swallowed by `enumerate_bucket_objects` (its except-branch re-raises only the
access-denied class), and the pass then even marks `objects_enumerated`,
instead of propagating the failure to the caller. -/
theorem enumerate_swallows_other_client_error :
    enumerate_bucket_objects (Except.ok ())
        [Except.error { code := "InternalError" }] c1bucket
      = ({ c1bucket with objects_enumerated := true }, none) := rfl

/-- C5: on a successful read probe (and a fully successful write probe),
uncredentialed mode sets the AllUsers flag of that capability ALLOWED
unconditionally, while credentialed mode writes the AuthUsers flag only when
the AllUsers flag is not already ALLOWED and otherwise leaves the bucket
untouched. -/
theorem success_flag_rule (bucket : Bucket) (now : String)
    (h : bucket.exists' = BucketExists.YES) :
    ((check_perm_read false (Except.ok ()) bucket).1.AllUsersRead
       = Permission.ALLOWED) ∧
    (bucket.AllUsersRead ≠ Permission.ALLOWED →
      (check_perm_read true (Except.ok ()) bucket).1.AuthUsersRead
        = Permission.ALLOWED) ∧
    (bucket.AllUsersRead = Permission.ALLOWED →
      (check_perm_read true (Except.ok ()) bucket).1 = bucket) ∧
    ((check_perm_write false now (Except.ok ()) (Except.ok ()) bucket).1.AllUsersWrite
       = Permission.ALLOWED) ∧
    (bucket.AllUsersWrite ≠ Permission.ALLOWED →
      (check_perm_write true now (Except.ok ()) (Except.ok ()) bucket).1.AuthUsersWrite
        = Permission.ALLOWED) ∧
    (bucket.AllUsersWrite = Permission.ALLOWED →
      (check_perm_write true now (Except.ok ()) (Except.ok ()) bucket).1 = bucket) := by
  refine ⟨?_, fun h2 => ?_, fun h2 => ?_, ?_, fun h2 => ?_, fun h2 => ?_⟩
  · simp [check_perm_read, h]
  · simp [check_perm_read, h, h2]
  · simp [check_perm_read, h, h2]
  · simp [check_perm_write, h]
  · simp [check_perm_write, h, h2]
  · simp [check_perm_write, h, h2]

/-- Witness for C5 at a fresh existing bucket in credentialed mode. -/
theorem success_flag_rule_witness :
    ({ name := "bucket", exists' := BucketExists.YES } : Bucket).exists'
      = BucketExists.YES ∧
    ({ name := "bucket", exists' := BucketExists.YES } : Bucket).AllUsersRead
      ≠ Permission.ALLOWED ∧
    (check_perm_read true (Except.ok ())
        { name := "bucket", exists' := BucketExists.YES }).1.AuthUsersRead
      = Permission.ALLOWED :=
  ⟨rfl, by decide,
   (success_flag_rule { name := "bucket", exists' := BucketExists.YES }
      "1700000000.5" rfl).2.1 (by decide)⟩

/-- The write-probe flag of the principal class the service's mode tests:
AuthUsersWrite in credentialed mode, AllUsersWrite in uncredentialed mode. -/
def modeWriteFlag (creds : Bool) (b : Bucket) : Permission :=
  if creds then b.AuthUsersWrite else b.AllUsersWrite

/-- C10: when the upload of the write probe succeeds (in a state where the
mode-relevant flag is actually assigned ALLOWED) and the cleanup delete then
fails, an access-denied-class delete failure silently overwrites that flag to
DENIED, while a delete failure with any other error code propagates as the
raised exception and leaves the flag at ALLOWED. -/
theorem write_probe_delete_failure (creds : Bool) (bucket : Bucket)
    (now : String) (e : ClientError)
    (hex : bucket.exists' = BucketExists.YES)
    (hc : creds = true → bucket.AllUsersWrite ≠ Permission.ALLOWED) :
    (isAccessDeniedCode e.code = true →
      modeWriteFlag creds
          (check_perm_write creds now (Except.ok ()) (Except.error e) bucket).1
        = Permission.DENIED ∧
      (check_perm_write creds now (Except.ok ()) (Except.error e) bucket).2.2
        = none) ∧
    (isAccessDeniedCode e.code = false →
      (check_perm_write creds now (Except.ok ()) (Except.error e) bucket).2.2
        = some (S3Err.clientError e) ∧
      modeWriteFlag creds
          (check_perm_write creds now (Except.ok ()) (Except.error e) bucket).1
        = Permission.ALLOWED) := by
  cases creds with
  | false =>
      refine ⟨fun hd => ?_, fun hd => ?_⟩ <;>
        simp [check_perm_write, modeWriteFlag, hex, hd]
  | true =>
      have hw := hc rfl
      refine ⟨fun hd => ?_, fun hd => ?_⟩ <;>
        simp [check_perm_write, modeWriteFlag, hex, hd, hw]

/-- Witness for C10: credentialed mode, denied delete overwrites the flag. -/
theorem write_probe_delete_failure_witness :
    isAccessDeniedCode "AccessDenied" = true ∧
    modeWriteFlag true
        (check_perm_write true "1700000000.5" (Except.ok ())
          (Except.error { code := "AccessDenied" })
          { name := "bucket", exists' := BucketExists.YES }).1
      = Permission.DENIED :=
  ⟨rfl,
   ((write_probe_delete_failure true
       { name := "bucket", exists' := BucketExists.YES } "1700000000.5"
       { code := "AccessDenied" } rfl (fun _ => by decide)).1 rfl).1⟩

/-- An existing bucket that already carries a stored ACL (with a present,
empty grant list) from an earlier successful ACL read. -/
def c9bucket : Bucket :=
  { name := "bucket", exists' := BucketExists.YES,
    foundACL := some { grants := some [] } }

/-- C9 counterexample: on a bucket that already holds a stored ACL, a denied
ACL read does not leave every other field unchanged — re-running the
interpretation routine flips further flags (here `AllUsersRead` moves from
UNKNOWN to DENIED), so the claim as stated fails. -/
theorem read_acl_denied_not_frame_preserving :
    (check_perm_read_acl true (Except.error { code := "AccessDenied" })
        c9bucket).1.AllUsersRead = Permission.DENIED ∧
    c9bucket.AllUsersRead = Permission.UNKNOWN := ⟨rfl, rfl⟩

/-- C9 amended: on a bucket with `exists` = YES and no previously stored ACL,
a denied ACL read sets exactly one flag to DENIED (AuthUsersReadACP in
credentialed mode, AllUsersReadACP otherwise), leaves every other field
unchanged, and raises nothing (the interpretation routine still runs, as a
no-op). -/
theorem read_acl_denied_sets_single_flag (creds : Bool) (e : ClientError)
    (bucket : Bucket) (hex : bucket.exists' = BucketExists.YES)
    (hacl : bucket.foundACL = none) (hd : isAccessDeniedCode e.code = true) :
    check_perm_read_acl creds (Except.error e) bucket
      = ((if creds then { bucket with AuthUsersReadACP := Permission.DENIED }
          else { bucket with AllUsersReadACP := Permission.DENIED }), none) := by
  cases creds <;> simp [check_perm_read_acl, parse_found_acl, hex, hacl, hd]

/-- Witness for the amended C9 in uncredentialed mode. -/
theorem read_acl_denied_sets_single_flag_witness :
    isAccessDeniedCode "AllAccessDisabled" = true ∧
    check_perm_read_acl false (Except.error { code := "AllAccessDisabled" })
        { name := "bucket", exists' := BucketExists.YES }
      = ({ name := "bucket", exists' := BucketExists.YES,
           AllUsersReadACP := Permission.DENIED }, none) :=
  ⟨rfl, by
    have h := read_acl_denied_sets_single_flag false
      { code := "AllAccessDisabled" }
      { name := "bucket", exists' := BucketExists.YES } rfl rfl rfl
    simpa using h⟩

/-- A fresh existing bucket for the C2 counterexample. -/
def c2bucket : Bucket := { name := "bucket", exists' := BucketExists.YES }

/-- C2 counterexample: when the upload itself fails (here with
"AccessDenied"), the probe never issues the delete — the delete statement
sits inside the same try block after the upload — so the cleanup is not
performed "regardless of the upload's outcome". -/
theorem write_probe_skips_delete_on_failed_upload :
    (check_perm_write false "1700000000.123456"
        (Except.error { code := "AccessDenied" }) (Except.ok ()) c2bucket).2.1
      = [S3Action.putObject "1700000000.123456.txt" ""] := rfl

/-- C2 amended: the probe uploads a zero-byte object whose key is the
timestamp string plus ".txt"; only when the upload succeeds does it delete
that same key immediately after; a delete failure of the access-denied class
is not surfaced as an error, while a delete failure with any other error code
propagates to the caller. -/
theorem write_probe_upload_delete_protocol (creds : Bool) (now : String)
    (putRes delRes : Except ClientError Unit) (bucket : Bucket)
    (hex : bucket.exists' = BucketExists.YES) :
    ((check_perm_write creds now putRes delRes bucket).2.1.head?
       = some (S3Action.putObject (now ++ ".txt") "")) ∧
    (∀ u, putRes = Except.ok u →
      (check_perm_write creds now putRes delRes bucket).2.1
        = [S3Action.putObject (now ++ ".txt") "",
           S3Action.deleteObject (now ++ ".txt")]) ∧
    (∀ e, putRes = Except.error e →
      (check_perm_write creds now putRes delRes bucket).2.1
        = [S3Action.putObject (now ++ ".txt") ""]) ∧
    (∀ u e, putRes = Except.ok u → delRes = Except.error e →
      isAccessDeniedCode e.code = true →
      (check_perm_write creds now putRes delRes bucket).2.2 = none) ∧
    (∀ u e, putRes = Except.ok u → delRes = Except.error e →
      isAccessDeniedCode e.code = false →
      (check_perm_write creds now putRes delRes bucket).2.2
        = some (S3Err.clientError e)) := by
  refine ⟨?_, ?_, ?_, ?_, ?_⟩
  · cases putRes with
    | ok u => cases delRes with
      | ok v => simp [check_perm_write, hex]
      | error e => by_cases hd : isAccessDeniedCode e.code <;>
          simp [check_perm_write, hex, hd]
    | error e => by_cases hd : isAccessDeniedCode e.code <;>
        simp [check_perm_write, hex, hd]
  · rintro u rfl
    cases delRes with
    | ok v => simp [check_perm_write, hex]
    | error e => by_cases hd : isAccessDeniedCode e.code <;>
        simp [check_perm_write, hex, hd]
  · rintro e rfl
    by_cases hd : isAccessDeniedCode e.code <;> simp [check_perm_write, hex, hd]
  · rintro u e rfl rfl hd
    simp [check_perm_write, hex, hd]
  · rintro u e rfl rfl hd
    simp [check_perm_write, hex, hd]

/-- Witness for the amended C2: successful upload and delete issue exactly
the put followed by the delete of the same key. -/
theorem write_probe_upload_delete_protocol_witness :
    (check_perm_write true "1700000000.5" (Except.ok ()) (Except.ok ())
        { name := "bucket", exists' := BucketExists.YES }).2.1
      = [S3Action.putObject "1700000000.5.txt" "",
         S3Action.deleteObject "1700000000.5.txt"] :=
  (write_probe_upload_delete_protocol true "1700000000.5" (Except.ok ())
      (Except.ok ()) { name := "bucket", exists' := BucketExists.YES }
      rfl).2.1 () rfl

/-- C3: for a stored ACL whose grant list is present, each flag ends at
ALLOWED exactly when some grant of the list awards it (to a Group grantee
with the matching URI, via the capability's own permission value or
FULL_CONTROL) or it was already ALLOWED, and at DENIED otherwise — the
closed-world default turns every flag still UNKNOWN into DENIED. -/
theorem parse_found_acl_characterization (gs : List Grant) (b : Bucket)
    (h : b.foundACL = some { grants := some gs }) :
    ((parse_found_acl b).AuthUsersRead =
       if grantsPerm gs authGroupURI "READ" = true ∨
          b.AuthUsersRead = Permission.ALLOWED
       then Permission.ALLOWED else Permission.DENIED) ∧
    ((parse_found_acl b).AuthUsersWrite =
       if grantsPerm gs authGroupURI "WRITE" = true ∨
          b.AuthUsersWrite = Permission.ALLOWED
       then Permission.ALLOWED else Permission.DENIED) ∧
    ((parse_found_acl b).AuthUsersReadACP =
       if grantsPerm gs authGroupURI "READ_ACP" = true ∨
          b.AuthUsersReadACP = Permission.ALLOWED
       then Permission.ALLOWED else Permission.DENIED) ∧
    ((parse_found_acl b).AuthUsersWriteACP =
       if grantsPerm gs authGroupURI "WRITE_ACP" = true ∨
          b.AuthUsersWriteACP = Permission.ALLOWED
       then Permission.ALLOWED else Permission.DENIED) ∧
    ((parse_found_acl b).AuthUsersFullControl =
       if grantsFullControl gs authGroupURI = true ∨
          b.AuthUsersFullControl = Permission.ALLOWED
       then Permission.ALLOWED else Permission.DENIED) ∧
    ((parse_found_acl b).AllUsersRead =
       if grantsPerm gs allGroupURI "READ" = true ∨
          b.AllUsersRead = Permission.ALLOWED
       then Permission.ALLOWED else Permission.DENIED) ∧
    ((parse_found_acl b).AllUsersWrite =
       if grantsPerm gs allGroupURI "WRITE" = true ∨
          b.AllUsersWrite = Permission.ALLOWED
       then Permission.ALLOWED else Permission.DENIED) ∧
    ((parse_found_acl b).AllUsersReadACP =
       if grantsPerm gs allGroupURI "READ_ACP" = true ∨
          b.AllUsersReadACP = Permission.ALLOWED
       then Permission.ALLOWED else Permission.DENIED) ∧
    ((parse_found_acl b).AllUsersWriteACP =
       if grantsPerm gs allGroupURI "WRITE_ACP" = true ∨
          b.AllUsersWriteACP = Permission.ALLOWED
       then Permission.ALLOWED else Permission.DENIED) ∧
    ((parse_found_acl b).AllUsersFullControl =
       if grantsFullControl gs allGroupURI = true ∨
          b.AllUsersFullControl = Permission.ALLOWED
       then Permission.ALLOWED else Permission.DENIED) := by
  have hp : parse_found_acl b = applyDefaults (applyGrants gs b) := by
    simp [parse_found_acl, h]
  rw [hp]
  refine ⟨?_, ?_, ?_, ?_, ?_, ?_, ?_, ?_, ?_, ?_⟩
  · by_cases hg : grantsPerm gs authGroupURI "READ" <;>
      cases hA : b.AuthUsersRead <;>
        simp [applyDefaults, applyGrants_AuthUsersRead, hg, hA]
  · by_cases hg : grantsPerm gs authGroupURI "WRITE" <;>
      cases hA : b.AuthUsersWrite <;>
        simp [applyDefaults, applyGrants_AuthUsersWrite, hg, hA]
  · by_cases hg : grantsPerm gs authGroupURI "READ_ACP" <;>
      cases hA : b.AuthUsersReadACP <;>
        simp [applyDefaults, applyGrants_AuthUsersReadACP, hg, hA]
  · by_cases hg : grantsPerm gs authGroupURI "WRITE_ACP" <;>
      cases hA : b.AuthUsersWriteACP <;>
        simp [applyDefaults, applyGrants_AuthUsersWriteACP, hg, hA]
  · by_cases hg : grantsFullControl gs authGroupURI <;>
      cases hA : b.AuthUsersFullControl <;>
        simp [applyDefaults, applyGrants_AuthUsersFullControl, hg, hA]
  · by_cases hg : grantsPerm gs allGroupURI "READ" <;>
      cases hA : b.AllUsersRead <;>
        simp [applyDefaults, applyGrants_AllUsersRead, hg, hA]
  · by_cases hg : grantsPerm gs allGroupURI "WRITE" <;>
      cases hA : b.AllUsersWrite <;>
        simp [applyDefaults, applyGrants_AllUsersWrite, hg, hA]
  · by_cases hg : grantsPerm gs allGroupURI "READ_ACP" <;>
      cases hA : b.AllUsersReadACP <;>
        simp [applyDefaults, applyGrants_AllUsersReadACP, hg, hA]
  · by_cases hg : grantsPerm gs allGroupURI "WRITE_ACP" <;>
      cases hA : b.AllUsersWriteACP <;>
        simp [applyDefaults, applyGrants_AllUsersWriteACP, hg, hA]
  · by_cases hg : grantsFullControl gs allGroupURI <;>
      cases hA : b.AllUsersFullControl <;>
        simp [applyDefaults, applyGrants_AllUsersFullControl, hg, hA]

/-- The grant list of the C3 witness: FULL_CONTROL to the AllUsers group
only. -/
def c3grants : List Grant :=
  [{ grantee := { granteeType := "Group", uri := some allGroupURI },
     permission := "FULL_CONTROL" }]

/-- The bucket of the C3 witness: fresh flags, stored ACL holding
`c3grants`. -/
def c3bucket : Bucket :=
  { name := "bucket", exists' := BucketExists.YES,
    foundACL := some { grants := some c3grants } }

/-- Witness for C3: an ACL granting FULL_CONTROL only to the AllUsers group
yields AllUsersRead ALLOWED and AuthUsersRead DENIED on a fresh bucket. -/
theorem parse_found_acl_characterization_witness :
    c3bucket.foundACL = some { grants := some c3grants } ∧
    (parse_found_acl c3bucket).AllUsersRead = Permission.ALLOWED ∧
    (parse_found_acl c3bucket).AuthUsersRead = Permission.DENIED := by
  have h := parse_found_acl_characterization c3grants c3bucket rfl
  refine ⟨rfl, ?_, ?_⟩
  · rw [h.2.2.2.2.2.1]
    simp [grantsPerm, grantMatches, c3grants]
  · rw [h.1]
    simp [grantsPerm, grantMatches, c3grants, c3bucket, authGroupURI, allGroupURI]

/-- Membership in an optional grant list: the parameter is submitted and the
URI is on it. -/
def optHas (o : Option (List String)) (u : String) : Prop :=
  ∃ l, o = some l ∧ u ∈ l

/-- C4: the grant request submitted by `check_perm_write_acl` on an existing
bucket carries, per capability parameter, exactly the principal URIs whose
flag is ALLOWED, plus the mode's own principal URI on the write-ACP list
only, and a capability parameter is omitted exactly when its list would be
empty (the write-ACP parameter is therefore always present). -/
theorem write_acl_args_characterization (creds : Bool) (bucket : Bucket)
    (u : String) (putAclRes : Except ClientError Unit)
    (hex : bucket.exists' = BucketExists.YES) :
    ((check_perm_write_acl creds putAclRes bucket).2.1
       = some (buildAclArgs creds bucket)) ∧
    (optHas (buildAclArgs creds bucket).grantRead u ↔
       (u = authUsersURI ∧ bucket.AuthUsersRead = Permission.ALLOWED) ∨
       (u = allUsersURI ∧ bucket.AllUsersRead = Permission.ALLOWED)) ∧
    (optHas (buildAclArgs creds bucket).grantWrite u ↔
       (u = authUsersURI ∧ bucket.AuthUsersWrite = Permission.ALLOWED) ∨
       (u = allUsersURI ∧ bucket.AllUsersWrite = Permission.ALLOWED)) ∧
    (optHas (buildAclArgs creds bucket).grantReadACP u ↔
       (u = authUsersURI ∧ bucket.AuthUsersReadACP = Permission.ALLOWED) ∨
       (u = allUsersURI ∧ bucket.AllUsersReadACP = Permission.ALLOWED)) ∧
    (optHas (buildAclArgs creds bucket).grantFullControl u ↔
       (u = authUsersURI ∧ bucket.AuthUsersFullControl = Permission.ALLOWED) ∨
       (u = allUsersURI ∧ bucket.AllUsersFullControl = Permission.ALLOWED)) ∧
    (optHas (buildAclArgs creds bucket).grantWriteACP u ↔
       (u = authUsersURI ∧ bucket.AuthUsersWriteACP = Permission.ALLOWED) ∨
       (u = allUsersURI ∧ bucket.AllUsersWriteACP = Permission.ALLOWED) ∨
       u = (if creds then authUsersURI else allUsersURI)) ∧
    ((buildAclArgs creds bucket).grantRead = none ↔
       ¬(bucket.AuthUsersRead = Permission.ALLOWED ∨
         bucket.AllUsersRead = Permission.ALLOWED)) ∧
    ((buildAclArgs creds bucket).grantWrite = none ↔
       ¬(bucket.AuthUsersWrite = Permission.ALLOWED ∨
         bucket.AllUsersWrite = Permission.ALLOWED)) ∧
    ((buildAclArgs creds bucket).grantReadACP = none ↔
       ¬(bucket.AuthUsersReadACP = Permission.ALLOWED ∨
         bucket.AllUsersReadACP = Permission.ALLOWED)) ∧
    ((buildAclArgs creds bucket).grantFullControl = none ↔
       ¬(bucket.AuthUsersFullControl = Permission.ALLOWED ∨
         bucket.AllUsersFullControl = Permission.ALLOWED)) ∧
    (buildAclArgs creds bucket).grantWriteACP ≠ none := by
  refine ⟨?_, ?_, ?_, ?_, ?_, ?_, ?_, ?_, ?_, ?_, ?_⟩
  · cases putAclRes with
    | ok v => simp [check_perm_write_acl, hex]
    | error e => by_cases hd : isAccessDeniedCode e.code <;>
        simp [check_perm_write_acl, hex, hd]
  · cases hA : bucket.AuthUsersRead <;> cases hB : bucket.AllUsersRead <;>
      simp [buildAclArgs, optHas, hA, hB]
  · cases hA : bucket.AuthUsersWrite <;> cases hB : bucket.AllUsersWrite <;>
      simp [buildAclArgs, optHas, hA, hB]
  · cases hA : bucket.AuthUsersReadACP <;> cases hB : bucket.AllUsersReadACP <;>
      simp [buildAclArgs, optHas, hA, hB]
  · cases hA : bucket.AuthUsersFullControl <;>
      cases hB : bucket.AllUsersFullControl <;>
        simp [buildAclArgs, optHas, hA, hB]
  · cases creds <;> cases hA : bucket.AuthUsersWriteACP <;>
      cases hB : bucket.AllUsersWriteACP <;>
        simp [buildAclArgs, optHas, hA, hB]
  · cases hA : bucket.AuthUsersRead <;> cases hB : bucket.AllUsersRead <;>
      simp [buildAclArgs, hA, hB]
  · cases hA : bucket.AuthUsersWrite <;> cases hB : bucket.AllUsersWrite <;>
      simp [buildAclArgs, hA, hB]
  · cases hA : bucket.AuthUsersReadACP <;> cases hB : bucket.AllUsersReadACP <;>
      simp [buildAclArgs, hA, hB]
  · cases hA : bucket.AuthUsersFullControl <;>
      cases hB : bucket.AllUsersFullControl <;>
        simp [buildAclArgs, hA, hB]
  · cases creds <;> cases hA : bucket.AuthUsersWriteACP <;>
      cases hB : bucket.AllUsersWriteACP <;>
        simp [buildAclArgs, hA, hB]

/-- The bucket of the C4 witness: only AuthUsersRead is ALLOWED. -/
def c4bucket : Bucket :=
  { name := "bucket", exists' := BucketExists.YES,
    AuthUsersRead := Permission.ALLOWED }

/-- Witness for C4 in credentialed mode with only AuthUsersRead ALLOWED: the
read list carries the AuthenticatedUsers URI and the write parameter is
omitted. -/
theorem write_acl_args_characterization_witness :
    c4bucket.exists' = BucketExists.YES ∧
    optHas (buildAclArgs true c4bucket).grantRead authUsersURI ∧
    (buildAclArgs true c4bucket).grantWrite = none := by
  have h := write_acl_args_characterization true c4bucket authUsersURI
    (Except.ok ()) rfl
  refine ⟨rfl, ?_, ?_⟩
  · exact h.2.1.mpr (Or.inl ⟨rfl, rfl⟩)
  · exact h.2.2.2.2.2.2.2.1.mpr (by decide)
